import Mathlib

/-!
Verification of the round-trip-translation module (`src/rtt.py`).

The module defines an abstract `RoundTripTranslator` contract and one
concrete implementation, `LibreTranslateRTT`, whose constructor validates
an endpoint url and two language codes against a fixed allow-list, and
whose `rtt` method performs two sequential calls to the remote client's
`translate` operation.

Embedding choices:
* The remote client is an external effect.  A method body is embedded as a
  program in the free monad `Prog` whose single operation is
  `translate text src tgt`; an interpreter `Prog.run` executes a program
  against a client behaviour `f : String → String → String → Except ε String`
  (a client call may fail, modelling a raised exception) while recording
  every call issued, in order.  A raised error aborts the rest of the
  program, exactly as a Python exception unwinds `rtt`.
* `ValueError`s raised by the constructor become the `Except InitError`
  result of `LibreTranslateRTT.init`; the error messages built by the
  source are reproduced by `InitError.message`.
* The Python set literal `LT_LANGUAGES` is embedded as the list of its
  elements in source order (all 46 are distinct).
-/

/-- One call to the remote client's `translate` operation, with the
arguments in source order: `translate(text, source, target)`. -/
structure TranslateCall where
  text : String
  src : String
  tgt : String
deriving DecidableEq, Repr

/-- Free monad over the single external effect of the module: a call
`self.lt.translate(text, src, tgt)` returning a `String`. -/
inductive Prog (α : Type) where
  | pure (a : α) : Prog α
  | translate (text src tgt : String) (k : String → Prog α) : Prog α

/-- Sequencing of effectful programs. -/
def Prog.bind {α β : Type} : Prog α → (α → Prog β) → Prog β
  | .pure a, g => g a
  | .translate text src tgt k, g => .translate text src tgt (fun r => (k r).bind g)

/-- A single client call as a program: `self.lt.translate(text, src, tgt)`. -/
def translateCall (text src tgt : String) : Prog String :=
  .translate text src tgt .pure

/-- Run a program against a client behaviour `f`.  Every call issued is
appended to the log, in order; when a call fails the remaining program is
abandoned and the error is returned unchanged (a raised exception
propagates). -/
def Prog.run {ε α : Type} (f : String → String → String → Except ε String) :
    Prog α → List TranslateCall → Except ε α × List TranslateCall
  | .pure a, log => (.ok a, log)
  | .translate text src tgt k, log =>
    match f text src tgt with
    | .ok r => (k r).run f (log ++ [⟨text, src, tgt⟩])
    | .error e => (.error e, log ++ [⟨text, src, tgt⟩])

/-- The fixed supported-language set `LT_LANGUAGES` of the module, in
source order. -/
def LT_LANGUAGES : List String :=
  ["ar", "az", "bg", "bn", "ca", "cs", "da", "de", "el", "en",
   "eo", "es", "et", "fa", "fi", "fr", "ga", "he", "hi", "hu",
   "id", "it", "ja", "ko", "lt", "lv", "ms", "nb", "nl", "pl",
   "pt", "ro", "ru", "sk", "sl", "sq", "sr", "sv", "th", "tl",
   "tr", "uk", "ur", "vi", "zh", "zt"]

/-- The client handle `LibreTranslateAPI(url, api_key=api_key)` created by
the constructor: it is bound to the endpoint url and the optional key. -/
structure LibreTranslateAPI where
  url : String
  api_key : Option String
deriving DecidableEq, Repr

/-- A constructed `LibreTranslateRTT` instance: the two language codes
stored by `RoundTripTranslator.__init__` and the client handle `self.lt`. -/
structure LibreTranslateRTT where
  source_lang : String
  target_lang : String
  lt : LibreTranslateAPI
deriving DecidableEq, Repr

/-- The two `ValueError`s the constructor can raise. -/
inductive InitError where
  | urlMissing : InitError
  | invalidLanguage (invalid : String) (valid : List String) : InitError
deriving DecidableEq, Repr

/-- An ASCII single-quote character, as a string. -/
def squote : String := String.singleton (Char.ofNat 39)

/-- Rendering of a set of language codes as Python displays it inside an
f-string: quoted elements, comma-separated, between braces (element order
fixed here to source order). -/
def pySetRepr (l : List String) : String :=
  "\x7b" ++ String.intercalate ", " (l.map (fun c => squote ++ c ++ squote)) ++ "\x7d"

/-- The message of each `ValueError` raised by the constructor, as built
in the source. -/
def InitError.message : InitError → String
  | .urlMissing =>
      "url must be given. Either set LT_ENDPOINT environment variable or pass a valid url."
  | .invalidLanguage invalid valid =>
      "Invalid language " ++ squote ++ invalid ++ squote ++ ", must be one of "
        ++ pySetRepr valid

/-- The constructor `LibreTranslateRTT.__init__(target_lang, source_lang, url, api_key)`.
Checks, in source order: `url is None`; then `source_lang` membership,
then `target_lang` membership (the walrus assignments make `invalid` the
first code that fails).  On success it stores the two codes and creates
the client handle.  Note the url check is `is None` only: an empty string
url passes. -/
def LibreTranslateRTT.init (target_lang : String) (source_lang : String)
    (url : Option String) (api_key : Option String) :
    Except InitError LibreTranslateRTT :=
  match url with
  | none => .error .urlMissing
  | some u =>
    if source_lang ∉ LT_LANGUAGES then
      .error (.invalidLanguage source_lang LT_LANGUAGES)
    else if target_lang ∉ LT_LANGUAGES then
      .error (.invalidLanguage target_lang LT_LANGUAGES)
    else
      .ok ⟨source_lang, target_lang, ⟨u, api_key⟩⟩

/-- The constructor body as a program in the effect language: it contains
no `self.lt.translate` call, so its image is `Prog.pure` of the pure
`init` result. -/
def LibreTranslateRTT.initProg (target_lang : String) (source_lang : String)
    (url : Option String) (api_key : Option String) :
    Prog (Except InitError LibreTranslateRTT) :=
  .pure (LibreTranslateRTT.init target_lang source_lang url api_key)

/-- The method `LibreTranslateRTT.rtt(text)`:
`text_t = self.lt.translate(text, self.source_lang, self.target_lang)`;
`return self.lt.translate(text_t, self.target_lang, self.source_lang)`. -/
def LibreTranslateRTT.rtt (self : LibreTranslateRTT) (text : String) : Prog String :=
  (translateCall text self.source_lang self.target_lang).bind fun text_t =>
    translateCall text_t self.target_lang self.source_lang

/-- State-passing form of the `rtt` method: along with the result it
returns the instance as it stands when the method returns.  The body
assigns no attribute, so the instance returned is `self` itself. -/
def LibreTranslateRTT.rttState (self : LibreTranslateRTT) (text : String) :
    Prog (String × LibreTranslateRTT) :=
  (self.rtt text).bind fun r => .pure (r, self)

/-- Running a sequenced program: run the first part; if it succeeds,
continue with the second on the extended log; if it fails, stop there. -/
theorem Prog.run_bind {ε α β : Type} (f : String → String → String → Except ε String)
    (p : Prog α) (g : α → Prog β) (log : List TranslateCall) :
    (p.bind g).run f log =
      match p.run f log with
      | (.ok a, log2) => (g a).run f log2
      | (.error e, log2) => ((.error e : Except ε β), log2) := by
  induction p generalizing log with
  | pure a => rfl
  | translate text src tgt k ih =>
    simp only [Prog.bind, Prog.run]
    cases f text src tgt with
    | ok r => exact ih r _
    | error e => rfl

/-- Claim C1: for every text and every (non-failing) client behaviour `g`,
`rtt` issues exactly two translate calls in order — first
`translate(text, source_lang, target_lang)` yielding the intermediate
text, then `translate(intermediate, target_lang, source_lang)` — and
returns the result of the second call. -/
theorem rtt_two_calls_in_order (ε : Type) (g : String → String → String → String)
    (self : LibreTranslateRTT) (text : String) :
    (self.rtt text).run (fun a b c => (.ok (g a b c) : Except ε String)) [] =
      (.ok (g (g text self.source_lang self.target_lang)
              self.target_lang self.source_lang),
       [⟨text, self.source_lang, self.target_lang⟩,
        ⟨g text self.source_lang self.target_lang,
         self.target_lang, self.source_lang⟩]) := rfl

/-- Claim C2: if the client's translate operation is the identity on its
text argument, then `rtt(text)` returns exactly `text`. -/
theorem rtt_identity_client (ε : Type) (self : LibreTranslateRTT) (text : String) :
    ((self.rtt text).run (fun a _ _ => (.ok a : Except ε String)) []).1 = .ok text := rfl

/-- Claim C3: if the first translate call raises an error, `rtt`
propagates that exact error and never makes the second call; and if the
first call succeeds and the second raises an error, that error propagates
unchanged as well — no catching, retry, or transformation. -/
theorem rtt_error_propagation (ε : Type) (f : String → String → String → Except ε String)
    (self : LibreTranslateRTT) (text : String) (e : ε) :
    (f text self.source_lang self.target_lang = .error e →
      (self.rtt text).run f [] =
        (.error e, [⟨text, self.source_lang, self.target_lang⟩])) ∧
    (∀ r : String, f text self.source_lang self.target_lang = .ok r →
      f r self.target_lang self.source_lang = .error e →
      (self.rtt text).run f [] =
        (.error e, [⟨text, self.source_lang, self.target_lang⟩,
                    ⟨r, self.target_lang, self.source_lang⟩])) := by
  constructor
  · intro h
    simp [LibreTranslateRTT.rtt, translateCall, Prog.bind, Prog.run, h]
  · intro r h1 h2
    simp [LibreTranslateRTT.rtt, translateCall, Prog.bind, Prog.run, h1, h2]

/-- Witness for C3: a client that always fails makes `rtt` stop after the
first call and return that error. -/
theorem rtt_error_propagation_witness :
    (LibreTranslateRTT.rtt ⟨"en", "fr", ⟨"http://localhost:5000", none⟩⟩ "hello").run
        (fun _ _ _ => (.error 0 : Except Nat String)) [] =
      (.error 0, [⟨"hello", "en", "fr"⟩]) :=
  (rtt_error_propagation Nat (fun _ _ _ => .error 0)
    ⟨"en", "fr", ⟨"http://localhost:5000", none⟩⟩ "hello" 0).1 rfl

/-- Claim C4 counterexample: the supported-language set has 46 codes, not
44 as the claim describes it. -/
theorem lt_languages_has_46_codes :
    LT_LANGUAGES.length = 46 ∧ ¬ LT_LANGUAGES.length = 44 := by decide

/-- Claim C4 (amended to the 46-code set): for every string outside the
supported set, construction with it as `source_lang` (any target), or as
`target_lang` with a supported source, fails with a ValueError carrying
the offending string and the full valid set, and the error message
contains the offending string and lists the valid set. -/
theorem invalid_language_rejected (bad : String) (hbad : bad ∉ LT_LANGUAGES) :
    (∀ t u k, LibreTranslateRTT.init t bad (some u) k =
        .error (.invalidLanguage bad LT_LANGUAGES)) ∧
    (∀ s u k, s ∈ LT_LANGUAGES → LibreTranslateRTT.init bad s (some u) k =
        .error (.invalidLanguage bad LT_LANGUAGES)) ∧
    (InitError.invalidLanguage bad LT_LANGUAGES).message =
      "Invalid language " ++ squote ++ bad ++ squote ++ ", must be one of "
        ++ pySetRepr LT_LANGUAGES := by
  refine ⟨?_, ?_, rfl⟩
  · intro t u k
    simp [LibreTranslateRTT.init, hbad]
  · intro s u k hs
    simp [LibreTranslateRTT.init, hbad, hs]

/-- Witness for C4: the unsupported code "xx" as target language is
rejected with an error naming "xx". -/
theorem invalid_language_rejected_witness :
    LibreTranslateRTT.init "xx" "en" (some "http://localhost:5000") none =
      .error (.invalidLanguage "xx" LT_LANGUAGES) :=
  (invalid_language_rejected "xx" (by decide)).2.1 "en" "http://localhost:5000" none
    (by decide)

/-- Claim C5 counterexample: an empty-string url is not rejected — the
constructor only checks `url is None`, so with `url=""` and valid
languages construction succeeds. -/
theorem empty_url_not_rejected :
    LibreTranslateRTT.init "fr" "en" (some "") none =
      .ok ⟨"en", "fr", ⟨"", none⟩⟩ := rfl

/-- Claim C5 (amended: null url only): whenever `url` is None,
construction fails with the configuration ValueError, whatever the
language arguments are — so before any language validation — and the
message is the one the source raises. -/
theorem none_url_rejected (t s : String) (k : Option String) :
    LibreTranslateRTT.init t s none k = .error .urlMissing ∧
    InitError.urlMissing.message =
      "url must be given. Either set LT_ENDPOINT environment variable or pass a valid url." :=
  ⟨rfl, rfl⟩

/-- Claim C6 counterexample: the supported set's size is 46, so the
claim's "fixed 44-code supported set" does not describe it. -/
theorem lt_languages_length_ne_44 : LT_LANGUAGES.length ≠ 44 := by decide

/-- Claim C6 (amended to the 46-code set): for any two supported codes,
construction with them as source and target succeeds given a url, and the
instance stores exactly the given codes and the client handle bound to
the url and api key. -/
theorem valid_languages_accepted (s t : String) (hs : s ∈ LT_LANGUAGES)
    (ht : t ∈ LT_LANGUAGES) (u : String) (k : Option String) :
    LibreTranslateRTT.init t s (some u) k = .ok ⟨s, t, ⟨u, k⟩⟩ := by
  simp [LibreTranslateRTT.init, hs, ht]

/-- Witness for C6: constructing with source "en" and target "fr"
succeeds and stores those codes. -/
theorem valid_languages_accepted_witness :
    LibreTranslateRTT.init "fr" "en" (some "http://localhost:5000") none =
      .ok ⟨"en", "fr", ⟨"http://localhost:5000", none⟩⟩ :=
  valid_languages_accepted "en" "fr" (by decide) (by decide) "http://localhost:5000" none

/-- Claim C7: a call to `rtt` leaves the instance unchanged: the
state-passing form of the method behaves exactly like `rtt` paired with
the untouched instance — on success the returned instance is the original
one, on failure the error and call log are identical and no instance
field was altered. -/
theorem rtt_preserves_instance (ε : Type) (f : String → String → String → Except ε String)
    (self : LibreTranslateRTT) (text : String) :
    (self.rttState text).run f [] =
      (Except.map (fun r => (r, self)) ((self.rtt text).run f []).1,
       ((self.rtt text).run f []).2) := by
  rw [LibreTranslateRTT.rttState, Prog.run_bind]
  cases h : (self.rtt text).run f [] with
  | mk res log2 =>
    cases res <;> rfl

/-- Claim C8: successful construction performs no translate call — the
constructor, as an effect program, issues no calls and leaves the log
untouched for every client behaviour — and only stores the arguments: on
success the instance holds exactly the given codes and a client handle
bound to the given url and api key. -/
theorem init_no_network (ε : Type) (f : String → String → String → Except ε String)
    (t s : String) (u k : Option String) (log : List TranslateCall) :
    ((LibreTranslateRTT.initProg t s u k).run f log =
      (.ok (LibreTranslateRTT.init t s u k), log)) ∧
    (∀ uu inst, u = some uu → LibreTranslateRTT.init t s u k = .ok inst →
      inst = ⟨s, t, ⟨uu, k⟩⟩) := by
  refine ⟨rfl, ?_⟩
  intro uu inst hu hinit
  subst hu
  by_cases hs : s ∈ LT_LANGUAGES
  · by_cases ht : t ∈ LT_LANGUAGES
    · simp [LibreTranslateRTT.init, hs, ht] at hinit
      exact hinit.symm
    · simp [LibreTranslateRTT.init, hs, ht] at hinit
  · simp [LibreTranslateRTT.init, hs] at hinit

/-- Witness for C8: at a concrete valid construction the stored instance
is exactly the arguments given. -/
theorem init_no_network_witness :
    (⟨"en", "fr", ⟨"http://localhost:5000", none⟩⟩ : LibreTranslateRTT) =
      ⟨"en", "fr", ⟨"http://localhost:5000", none⟩⟩ :=
  (init_no_network Unit (fun _ _ _ => .ok "") "fr" "en" (some "http://localhost:5000")
    none []).2 "http://localhost:5000"
    ⟨"en", "fr", ⟨"http://localhost:5000", none⟩⟩ rfl rfl

/-- Claim C9: when both codes are unsupported, the error raised names the
source language (the first one checked by the walrus chain), not the
target. -/
theorem both_invalid_reports_source (s t u : String) (k : Option String)
    (hs : s ∉ LT_LANGUAGES) (ht : t ∉ LT_LANGUAGES) :
    LibreTranslateRTT.init t s (some u) k =
      .error (.invalidLanguage s LT_LANGUAGES) := by
  simp [LibreTranslateRTT.init, hs]

/-- Witness for C9: with source "xx" and target "yy", both unsupported,
the error names "xx". -/
theorem both_invalid_reports_source_witness :
    LibreTranslateRTT.init "yy" "xx" (some "http://localhost:5000") none =
      .error (.invalidLanguage "xx" LT_LANGUAGES) :=
  both_invalid_reports_source "xx" "yy" "http://localhost:5000" none (by decide) (by decide)

/-- Claim C10: `rtt` is deterministic relative to its client: for any
client behaviour, two instances with the same source and target languages
produce the same result and the same call sequence on the same text. -/
theorem rtt_deterministic (ε : Type) (f : String → String → String → Except ε String)
    (a b : LibreTranslateRTT) (text : String)
    (hs : a.source_lang = b.source_lang) (ht : a.target_lang = b.target_lang) :
    (a.rtt text).run f [] = (b.rtt text).run f [] := by
  simp [LibreTranslateRTT.rtt, hs, ht]

/-- Witness for C10: two instances sharing language codes but with
different client handles run identically against the same client
behaviour. -/
theorem rtt_deterministic_witness :
    ((⟨"en", "fr", ⟨"http://one", none⟩⟩ : LibreTranslateRTT).rtt "hello").run
        (fun x _ _ => (.ok x : Except Unit String)) [] =
      ((⟨"en", "fr", ⟨"http://two", some "k"⟩⟩ : LibreTranslateRTT).rtt "hello").run
        (fun x _ _ => (.ok x : Except Unit String)) [] :=
  rtt_deterministic Unit (fun x _ _ => .ok x) ⟨"en", "fr", ⟨"http://one", none⟩⟩
    ⟨"en", "fr", ⟨"http://two", some "k"⟩⟩ "hello" rfl rfl
